import Mathlib

/-!
# Verification of the LibreOffice/Collabora process supervisor

A shallow embedding of `src-tauri/mcp-servers/libreoffice/main.py`:
the process-lifecycle supervisor that launches a headless office suite
and a helper process, guards launches by a TCP-port liveness probe, and
tears both processes down on shutdown.

Python side effects are reified as a trace of `Action`s; Python
exceptions are reified as `Except PyError`.  Each Lean definition
mirrors one Python function of the source file.
-/

namespace MainPy

/-- The two logical roles of child processes managed by the supervisor. -/
inductive Role where
  | office
  | helper
deriving DecidableEq, Repr

/-- Observable side effects performed by the supervisor, in order. -/
inductive Action where
  | log (msg : String)
  | terminate (r : Role)
  | waitGrace (r : Role) (timeoutSecs : Nat)
  | kill (r : Role)
  | spawn (r : Role) (cmd : List String)
  | sleep (secs : Nat)
deriving DecidableEq, Repr

/-- Python exceptions relevant to `main.py`. -/
inductive PyError where
  | osError (msg : String)
  | fileNotFoundError (msg : String)
  | timeoutExpired
  | keyboardInterrupt
  | exceptionOther (msg : String)
deriving DecidableEq, Repr

/-- A `subprocess.Popen` handle, abstracted to what `main.py` observes:
whether `poll()` reports the process already exited, and whether
`wait(timeout=5)` would time out. -/
structure Proc where
  exited : Bool
  waitTimesOut : Bool
deriving DecidableEq, Repr

/-- `p.poll()`: `some code` iff the process has exited, `none` while alive. -/
def Proc.poll (p : Proc) : Option Nat :=
  if p.exited then some 0 else none

/-- `p.wait(timeout=n)`: raises `TimeoutExpired` iff the wait times out. -/
def Proc.waitTimeout (p : Proc) (_n : Nat) : Except PyError Unit :=
  if p.waitTimesOut then .error .timeoutExpired else .ok ()

/-- The module-level mutable state of `main.py`: the two global process
handles `office_process` and `helper_process` (both start as `None`). -/
structure SupState where
  office_process : Option Proc
  helper_process : Option Proc
deriving DecidableEq, Repr

/-- The `if proc and proc.poll() is None: terminate; try wait(5) except
TimeoutExpired: kill` block of `cleanup_processes`, for one handle.
Returns the actions performed; only `TimeoutExpired` is caught, any
other exception from the wait would propagate. -/
def cleanupOne (r : Role) (msg : String) (p : Option Proc) :
    Except PyError (List Action) :=
  match p with
  | none => .ok []
  | some proc =>
    if (proc.poll).isNone then
      match proc.waitTimeout 5 with
      | .ok _ =>
          .ok [Action.log msg, Action.terminate r, Action.waitGrace r 5]
      | .error .timeoutExpired =>
          .ok [Action.log msg, Action.terminate r, Action.waitGrace r 5,
               Action.kill r]
      | .error e => .error e
    else
      .ok []

/-- `cleanup_processes()`: logs, then the helper block, then the office
block, in that source order. -/
def cleanup_processes (helper_process office_process : Option Proc) :
    Except PyError (List Action) :=
  match cleanupOne .helper "Terminating helper process..." helper_process with
  | .error e => .error e
  | .ok h =>
    match cleanupOne .office "Terminating office process..." office_process with
    | .error e => .error e
    | .ok o => .ok ([Action.log "Cleaning up processes..."] ++ h ++ o)

/-- The trace of a `cleanup_processes` call on a state (used by callers
that rely on cleanup never raising). -/
def cleanupTrace (st : SupState) : List Action :=
  match cleanup_processes st.helper_process st.office_process with
  | .ok t => t
  | .error _ => []

/-- The Windows candidate list of `get_office_path`, in source order. -/
def windowsOfficePaths : List String :=
  ["C:\\Program Files\\Collabora Office\\program\\soffice.exe",
   "C:\\Program Files (x86)\\Collabora Office\\program\\soffice.exe",
   "C:\\Program Files\\LibreOffice\\program\\soffice.exe"]

/-- The Linux candidate list of `get_office_path`, in source order
(the LibreOffice fallbacks are commented out in the source). -/
def linuxOfficePaths : List String :=
  ["/usr/bin/coolwsd",
   "/usr/bin/collaboraoffice",
   "/opt/collaboraoffice/program/soffice",
   "/usr/lib/collaboraoffice/program/soffice"]

/-- `str.lower()` for ASCII platform names, mapping `Char.toLower`
over the characters (what `String.toLower` does, written so it reduces). -/
def lowerStr (s : String) : String :=
  String.mk (s.data.map Char.toLower)

/-- The message of the `FileNotFoundError` raised by `get_office_path`. -/
def officeNotFoundMsg : String :=
  "Neither Collabora Office nor LibreOffice executable found. Please install either office suite."

/-- The `for path in possible_paths: if os.path.exists(path): return path`
loop followed by `raise FileNotFoundError(...)`.  Besides the result it
records which paths were probed with `os.path.exists`, in order. -/
def findFirstExisting (pathExists : String → Bool) :
    List String → Except PyError String × List String
  | [] => (.error (.fileNotFoundError officeNotFoundMsg), [])
  | p :: rest =>
    if pathExists p then (.ok p, [p])
    else
      let r := findFirstExisting pathExists rest
      (r.1, p :: r.2)

/-- `get_office_path()`: lowercases `platform.system()`, selects the
OS-specific candidate list, raises `OSError` on any other OS, and
returns the first existing candidate (or raises `FileNotFoundError`).
The second component is the list of paths probed on the filesystem. -/
def get_office_path (rawSystem : String) (pathExists : String → Bool) :
    Except PyError String × List String :=
  let system := lowerStr rawSystem
  if system = "windows" then
    findFirstExisting pathExists windowsOfficePaths
  else if system = "linux" then
    findFirstExisting pathExists linuxOfficePaths
  else
    (.error (.osError ("Unsupported operating system: " ++ system)), [])

/-- The Windows candidate list of `get_python_path`, in source order. -/
def windowsPythonPaths : List String :=
  ["C:\\Program Files\\Collabora Office\\program\\python.exe",
   "C:\\Program Files (x86)\\Collabora Office\\program\\python.exe",
   "C:\\Program Files\\LibreOffice\\program\\python.exe"]

/-- `get_python_path()`: on Windows the first existing bundled
interpreter, falling back to `sys.executable`; elsewhere always
`sys.executable`. -/
def get_python_path (rawSystem sysExecutable : String)
    (pathExists : String → Bool) : String :=
  if lowerStr rawSystem = "windows" then
    match windowsPythonPaths.find? pathExists with
    | some p => p
    | none => sysExecutable
  else
    sysExecutable

/-- Whether a string starts with the POSIX path separator. -/
def startsWithSlash (s : String) : Bool :=
  s.data.head? == some '/'

/-- Whether a string ends with the POSIX path separator. -/
def endsWithSlash (s : String) : Bool :=
  s.data.getLast? == some '/'

/-- `os.path.dirname` with POSIX semantics, on the character list: the
prefix up to and including the last `/` (empty when there is no `/`),
with trailing slashes stripped unless the prefix is all slashes. -/
def dirnameChars (cs : List Char) : List Char :=
  let head := (cs.reverse.dropWhile (fun c => c ≠ '/')).reverse
  if head = [] then []
  else if head.all (· = '/') then head
  else (head.reverse.dropWhile (· = '/')).reverse

/-- `os.path.dirname` with POSIX semantics. -/
def dirname (p : String) : String :=
  String.mk (dirnameChars p.data)

/-- `os.path.join a b` with POSIX semantics for one extra component. -/
def pathJoin (a b : String) : String :=
  if startsWithSlash b then b
  else if a = "" ∨ endsWithSlash a then a ++ b
  else a ++ "/" ++ b

/-- Whether a POSIX path is absolute (`os.path.isabs`). -/
def isAbsolute (p : String) : Bool :=
  startsWithSlash p

/-- The helper script path computed by `start_helper`:
`os.path.join(os.path.dirname(sys.argv[0]), "helper.py")`. -/
def helperScriptOf (argv0 : String) : String :=
  pathJoin (dirname argv0) "helper.py"

/-- How the operating system resolves a path handed to `Popen` against
the current working directory of the caller. -/
def resolveAgainstCwd (cwd p : String) : String :=
  if isAbsolute p then p else pathJoin cwd p

/-- The environment a run of `main.py` observes: the port probe
(`is_port_in_use`), the filesystem (`os.path.exists`),
`platform.system()`, `sys.argv[0]`, `sys.executable`, the outcome of
each `subprocess.Popen` call, and the outcome of the blocking
`subprocess.run` inside `start_mcp_server` (where a Ctrl+C surfaces as
`KeyboardInterrupt`). -/
structure Env where
  portInUse : Nat → Bool
  pathExists : String → Bool
  system : String
  argv0 : String
  sysExecutable : String
  popen : Role → List String → Except PyError Proc
  mcpRun : Except PyError Unit

/-- The argument list `start_office` hands to `subprocess.Popen`. -/
def officeCmd (sofficePath : String) (port : Nat) : List String :=
  [sofficePath,
   "-env:UserInstallation=file:///C:/Temp/LibreOfficeHeadlessProfile",
   "--headless",
   "--accept=socket,host=localhost,port=" ++ toString port ++ ";urp;",
   "--norestore", "--nodefault", "--nologo"]

/-- `start_office(port=2002)`: if the port is free, resolve the office
executable, spawn it and sleep 3 seconds, registering the handle in
`office_process`; if the port is bound, log only.  Exceptions from
`get_office_path` or `Popen` propagate. -/
def start_office (env : Env) (st : SupState) (port : Nat := 2002) :
    Except PyError (SupState × List Action) :=
  if ¬ env.portInUse port then
    match (get_office_path env.system env.pathExists).1 with
    | .error e => .error e
    | .ok sofficePath =>
      match env.popen .office (officeCmd sofficePath port) with
      | .error e => .error e
      | .ok proc =>
        .ok ({ st with office_process := some proc },
             [Action.log "Starting Collabora Office with socket...",
              Action.spawn .office (officeCmd sofficePath port),
              Action.sleep 3])
  else
    .ok (st, [Action.log
      ("Office socket already running on port " ++ toString port)])

/-- `start_helper()`: if port 8765 is free, locate `helper.py` next to
`sys.argv[0]`, spawn it with `get_python_path()` and sleep 3 seconds,
registering the handle in `helper_process`; if the port is bound, log
only. -/
def start_helper (env : Env) (st : SupState) :
    Except PyError (SupState × List Action) :=
  if ¬ env.portInUse 8765 then
    let helper_script := helperScriptOf env.argv0
    let python_path :=
      get_python_path env.system env.sysExecutable env.pathExists
    match env.popen .helper [python_path, helper_script] with
    | .error e => .error e
    | .ok proc =>
      .ok ({ st with helper_process := some proc },
           [Action.log "Starting Office helper...",
            Action.spawn .helper [python_path, helper_script],
            Action.sleep 3])
  else
    .ok (st, [Action.log "Helper script already running on port 8765"])

/-- The `try` block of `main()`: `start_office(); start_helper();
start_mcp_server()`, threading the global state; returns the state
reached, the actions so far, and the exception that escaped (if any). -/
def runStartup (env : Env) : SupState × List Action × Option PyError :=
  let st0 : SupState := ⟨none, none⟩
  match start_office env st0 2002 with
  | .error e => (st0, [], some e)
  | .ok (st1, t1) =>
    match start_helper env st1 with
    | .error e => (st1, t1, some e)
    | .ok (st2, t2) =>
      match env.mcpRun with
      | .error e => (st2, t1 ++ t2, some e)
      | .ok _ => (st2, t1 ++ t2, none)

/-- `signal_handler`: log, `cleanup_processes()`, `sys.exit(0)`.
Returns the exit code and the actions performed. -/
def signal_handler (st : SupState) : Nat × List Action :=
  (0, Action.log "Received interrupt signal. Shutting down..."
        :: cleanupTrace st)

/-- `main()` after the `atexit`/signal registration: run the startup
sequence; on `KeyboardInterrupt` clean up and exit 0; on any other
exception clean up and exit 1; on normal completion the process exits 0
and the `atexit`-registered `cleanup_processes` runs.  Returns the exit
code and the full action trace. -/
def main_run (env : Env) : Nat × List Action :=
  match runStartup env with
  | (st, tr, some PyError.keyboardInterrupt) =>
    (0, tr ++ [Action.log "Received keyboard interrupt. Shutting down..."]
          ++ cleanupTrace st)
  | (st, tr, some e) =>
    (1, tr ++ [Action.log ("An error occurred: " ++ reprStr e)]
          ++ cleanupTrace st)
  | (st, tr, none) =>
    (0, tr ++ cleanupTrace st)

/-- Whether an action is a `Popen` spawn for role `r`. -/
def isSpawnOf (r : Role) : Action → Bool
  | .spawn r2 _ => r2 == r
  | _ => false

/-- How many processes a trace spawns for role `r`. -/
def spawnCount (r : Role) (tr : List Action) : Nat :=
  (tr.filter (isSpawnOf r)).length

/-- A concrete environment in which every port is reported bound. -/
def envPortsBound : Env where
  portInUse := fun _ => true
  pathExists := fun _ => false
  system := "Linux"
  argv0 := "/opt/smolpc/main.py"
  sysExecutable := "/usr/bin/python3"
  popen := fun _ _ => .error (.exceptionOther "spawn unavailable")
  mcpRun := .ok ()

/-- A concrete environment on an unsupported operating system. -/
def envUnsupportedOS : Env where
  portInUse := fun _ => false
  pathExists := fun _ => true
  system := "Darwin"
  argv0 := "/opt/smolpc/main.py"
  sysExecutable := "/usr/bin/python3"
  popen := fun _ _ => .ok ⟨false, false⟩
  mcpRun := .ok ()

/-- A concrete environment in which startup succeeds and the serving
loop is interrupted by Ctrl+C. -/
def envInterrupted : Env where
  portInUse := fun _ => true
  pathExists := fun _ => false
  system := "Linux"
  argv0 := "/opt/smolpc/main.py"
  sysExecutable := "/usr/bin/python3"
  popen := fun _ _ => .error (.exceptionOther "spawn unavailable")
  mcpRun := .error .keyboardInterrupt

/-- A concrete environment in which both ports are free and both
launches succeed. -/
def envFreshRun : Env where
  portInUse := fun _ => false
  pathExists := fun p => p = "/usr/bin/coolwsd"
  system := "Linux"
  argv0 := "/opt/smolpc/main.py"
  sysExecutable := "/usr/bin/python3"
  popen := fun _ _ => .ok ⟨false, false⟩
  mcpRun := .ok ()

/-- A concrete environment in which the supervisor was invoked with a
relative `sys.argv[0]` (as in `python main.py` from the script's own
directory). -/
def envRelativeArgv0 : Env where
  portInUse := fun _ => false
  pathExists := fun _ => false
  system := "Linux"
  argv0 := "main.py"
  sysExecutable := "/usr/bin/python3"
  popen := fun _ _ => .ok ⟨false, false⟩
  mcpRun := .ok ()

/-! ## Helper lemmas -/

lemma cleanupOne_ok (r : Role) (msg : String) (p : Option Proc) :
    ∃ tr, cleanupOne r msg p = .ok tr := by
  match p with
  | none => exact ⟨[], rfl⟩
  | some ⟨e, w⟩ => cases e <;> cases w <;> exact ⟨_, rfl⟩

lemma cleanupOne_exited (r : Role) (msg : String) (p : Proc)
    (h : p.exited = true) : cleanupOne r msg (some p) = .ok [] := by
  rcases p with ⟨e, w⟩
  subst h
  rfl

lemma cleanupOne_alive (r : Role) (msg : String) (p : Proc)
    (h : p.exited = false) :
    cleanupOne r msg (some p) =
      .ok ([Action.log msg, Action.terminate r, Action.waitGrace r 5] ++
        (if p.waitTimesOut then [Action.kill r] else [])) := by
  rcases p with ⟨e, w⟩
  subst h
  cases w <;> rfl

lemma cleanup_processes_ok (h o : Option Proc) :
    ∃ tr, cleanup_processes h o = .ok tr := by
  obtain ⟨t1, h1⟩ := cleanupOne_ok .helper "Terminating helper process..." h
  obtain ⟨t2, h2⟩ := cleanupOne_ok .office "Terminating office process..." o
  exact ⟨_, by rw [cleanup_processes, h1, h2]⟩

/-! ## Claim theorems -/

/-- C10: calling `cleanup_processes` before any launch, when both global
process handles are still `None`, performs no termination action on any
process and returns normally (a single log, no exception). -/
theorem C10_cleanup_before_launch :
    cleanup_processes none none = .ok [Action.log "Cleaning up processes..."] :=
  rfl

/-- C1: when the port-liveness probe reports the port already bound,
`start_office` and `start_helper` spawn no process, perform no startup
delay, leave the process handles untouched, and return normally with a
log as their only action. -/
theorem C1_idempotent_launch (env : Env) (st : SupState) (port : Nat)
    (hoff : env.portInUse port = true) (hhelp : env.portInUse 8765 = true) :
    start_office env st port =
      .ok (st, [Action.log ("Office socket already running on port " ++ toString port)]) ∧
    start_helper env st =
      .ok (st, [Action.log "Helper script already running on port 8765"]) := by
  constructor
  · simp [start_office, hoff]
  · simp [start_helper, hhelp]

/-- Witness for C1 at a concrete environment with all ports bound. -/
theorem C1_idempotent_launch_witness :
    start_office envPortsBound ⟨none, none⟩ 2002 =
      .ok (⟨none, none⟩, [Action.log ("Office socket already running on port " ++ toString 2002)]) ∧
    start_helper envPortsBound ⟨none, none⟩ =
      .ok (⟨none, none⟩, [Action.log "Helper script already running on port 8765"]) :=
  C1_idempotent_launch envPortsBound ⟨none, none⟩ 2002 rfl rfl

/-- C2: when both processes are owned and alive, `cleanup_processes`
returns normally and its (deterministic) action trace terminates the
helper strictly before the office process. -/
theorem C2_shutdown_order (hp op : Proc)
    (hh : hp.exited = false) (ho : op.exited = false) :
    ∃ tr, cleanup_processes (some hp) (some op) = .ok tr ∧
      Action.terminate .helper ∈ tr ∧ Action.terminate .office ∈ tr ∧
      tr.indexOf (Action.terminate .helper) <
        tr.indexOf (Action.terminate .office) := by
  rcases hp with ⟨he, hw⟩
  rcases op with ⟨oe, ow⟩
  subst hh
  subst ho
  cases hw <;> cases ow <;> exact ⟨_, rfl, by decide, by decide, by decide⟩

/-- Witness for C2 with both processes alive and exiting gracefully. -/
theorem C2_shutdown_order_witness :
    ∃ tr, cleanup_processes (some ⟨false, false⟩) (some ⟨false, false⟩) = .ok tr ∧
      Action.terminate .helper ∈ tr ∧ Action.terminate .office ∈ tr ∧
      tr.indexOf (Action.terminate .helper) <
        tr.indexOf (Action.terminate .office) :=
  C2_shutdown_order ⟨false, false⟩ ⟨false, false⟩ rfl rfl

/-- C3: invoking `cleanup_processes` twice in a row never raises: the
first call returns normally on any handles, and the second call, seeing
handles whose liveness poll reports the processes already exited,
returns normally having performed no terminate, wait or kill at all. -/
theorem C3_shutdown_idempotent (hp1 op1 hp2 op2 : Proc)
    (h2 : hp2.exited = true) (o2 : op2.exited = true) :
    (∃ tr, cleanup_processes (some hp1) (some op1) = .ok tr) ∧
    cleanup_processes (some hp2) (some op2) =
      .ok [Action.log "Cleaning up processes..."] := by
  refine ⟨cleanup_processes_ok _ _, ?_⟩
  rw [cleanup_processes, cleanupOne_exited _ _ _ h2, cleanupOne_exited _ _ _ o2]
  rfl

/-- Witness for C3: a first shutdown against live handles, then a
second one against exited handles. -/
theorem C3_shutdown_idempotent_witness :
    (∃ tr, cleanup_processes (some ⟨false, true⟩) (some ⟨false, true⟩) = .ok tr) ∧
    cleanup_processes (some ⟨true, false⟩) (some ⟨true, false⟩) =
      .ok [Action.log "Cleaning up processes..."] :=
  C3_shutdown_idempotent ⟨false, true⟩ ⟨false, true⟩ ⟨true, false⟩ ⟨true, false⟩ rfl rfl

/-- C4: for an owned live process, the per-process shutdown block of
`cleanup_processes` terminates, waits the 5-second grace period, and
escalates to a forced kill exactly when the wait times out; it returns
normally either way. -/
theorem C4_grace_then_kill (r : Role) (msg : String) (p : Proc)
    (halive : p.exited = false) :
    ∃ tr, cleanupOne r msg (some p) = .ok tr ∧
      tr = [Action.log msg, Action.terminate r, Action.waitGrace r 5] ++
        (if p.waitTimesOut then [Action.kill r] else []) ∧
      (Action.kill r ∈ tr ↔ p.waitTimesOut = true) := by
  refine ⟨_, cleanupOne_alive r msg p halive, rfl, ?_⟩
  rcases p with ⟨e, w⟩
  cases w <;> simp

/-- Witness for C4: a live office process whose graceful wait times
out, so the kill escalation fires. -/
theorem C4_grace_then_kill_witness :
    ∃ tr, cleanupOne .office "Terminating office process..." (some ⟨false, true⟩) = .ok tr ∧
      tr = [Action.log "Terminating office process...",
            Action.terminate .office, Action.waitGrace .office 5] ++
        (if (Proc.mk false true).waitTimesOut then [Action.kill .office] else []) ∧
      (Action.kill .office ∈ tr ↔ (Proc.mk false true).waitTimesOut = true) :=
  C4_grace_then_kill .office "Terminating office process..." ⟨false, true⟩ rfl

/-- C5: if a startup step of `main` raises, cleanup of the processes
launched so far runs and the exit code is 1; if the raised exception is
a keyboard interrupt, cleanup runs and the exit code is 0. -/
theorem C5_top_level_failure (env : Env) (st : SupState) (tr : List Action)
    (e : PyError) (h : runStartup env = (st, tr, some e)) :
    (e = PyError.keyboardInterrupt →
      main_run env =
        (0, tr ++ [Action.log "Received keyboard interrupt. Shutting down..."]
              ++ cleanupTrace st)) ∧
    (e ≠ PyError.keyboardInterrupt →
      main_run env =
        (1, tr ++ [Action.log ("An error occurred: " ++ reprStr e)]
              ++ cleanupTrace st)) := by
  constructor
  · intro he
    subst he
    rw [main_run, h]
  · intro he
    rw [main_run, h]
    cases e <;> simp_all

/-- Witness for C5: a startup failure on an unsupported OS exits 1, and
a keyboard interrupt after a successful startup exits 0, both after
running cleanup. -/
theorem C5_top_level_failure_witness :
    main_run envUnsupportedOS =
      (1, [] ++ [Action.log ("An error occurred: " ++
            reprStr (PyError.osError "Unsupported operating system: darwin"))]
            ++ cleanupTrace ⟨none, none⟩) ∧
    main_run envInterrupted =
      (0, [Action.log ("Office socket already running on port " ++ toString 2002),
           Action.log "Helper script already running on port 8765"]
            ++ [Action.log "Received keyboard interrupt. Shutting down..."]
            ++ cleanupTrace ⟨none, none⟩) :=
  ⟨(C5_top_level_failure envUnsupportedOS ⟨none, none⟩ []
      (PyError.osError "Unsupported operating system: darwin") rfl).2 (by decide),
   (C5_top_level_failure envInterrupted ⟨none, none⟩
      [Action.log ("Office socket already running on port " ++ toString 2002),
       Action.log "Helper script already running on port 8765"]
      PyError.keyboardInterrupt rfl).1 rfl⟩

lemma findFirstExisting_fst (ex : String → Bool) (l : List String) :
    (findFirstExisting ex l).1 =
      match l.find? ex with
      | some p => Except.ok p
      | none => Except.error (PyError.fileNotFoundError officeNotFoundMsg) := by
  induction l with
  | nil => rfl
  | cons p rest ih =>
    by_cases h : ex p = true
    · simp [findFirstExisting, List.find?_cons, h]
    · simp only [Bool.not_eq_true] at h
      simp [findFirstExisting, List.find?_cons, h, ih]

/-- C6: on a supported platform, `get_office_path` returns the first
path of the fixed, ordered, platform-specific candidate list that the
filesystem reports as existing, and raises `FileNotFoundError` when no
candidate exists. -/
theorem C6_resolution_order (sys : String) (ex : String → Bool)
    (candidates : List String)
    (h : (lowerStr sys = "windows" ∧ candidates = windowsOfficePaths) ∨
         (lowerStr sys = "linux" ∧ candidates = linuxOfficePaths)) :
    (get_office_path sys ex).1 =
      match candidates.find? ex with
      | some p => Except.ok p
      | none => Except.error (PyError.fileNotFoundError officeNotFoundMsg) := by
  rcases h with ⟨hs, rfl⟩ | ⟨hs, rfl⟩ <;>
    simp [get_office_path, hs, findFirstExisting_fst]

/-- Witness for C6 on Linux with exactly the third candidate present. -/
theorem C6_resolution_order_witness :
    (get_office_path "Linux"
        (fun p => p = "/opt/collaboraoffice/program/soffice")).1 =
      match linuxOfficePaths.find?
          (fun p => p = "/opt/collaboraoffice/program/soffice") with
      | some p => Except.ok p
      | none => Except.error (PyError.fileNotFoundError officeNotFoundMsg) :=
  C6_resolution_order "Linux" (fun p => p = "/opt/collaboraoffice/program/soffice")
    linuxOfficePaths (Or.inr ⟨by decide, rfl⟩)

/-- C7: on any platform outside the supported set, `get_office_path`
raises `OSError` and probes no filesystem path at all (its probe trace
is empty). -/
theorem C7_unsupported_platform (sys : String) (ex : String → Bool)
    (hw : lowerStr sys ≠ "windows") (hl : lowerStr sys ≠ "linux") :
    get_office_path sys ex =
      (Except.error (PyError.osError
        ("Unsupported operating system: " ++ lowerStr sys)), []) := by
  simp [get_office_path, hw, hl]

/-- Witness for C7 on macOS ("Darwin"). -/
theorem C7_unsupported_platform_witness :
    get_office_path "Darwin" (fun _ => true) =
      (Except.error (PyError.osError
        ("Unsupported operating system: " ++ lowerStr "Darwin")), []) :=
  C7_unsupported_platform "Darwin" (fun _ => true) (by decide) (by decide)

lemma getLast?_of_suffix {α : Type} {d l : List α} (hd : d ≠ [])
    (h : d <:+ l) : l.getLast? = d.getLast? := by
  obtain ⟨s, rfl⟩ := h
  exact List.getLast?_append_of_ne_nil s hd

lemma dropWhile_is_suffix {α : Type} (p : α → Bool) (l : List α) :
    l.dropWhile p <:+ l :=
  ⟨l.takeWhile p, l.takeWhile_append_dropWhile p⟩

lemma dirnameChars_head {cs : List Char} (h : cs.head? = some '/') :
    (dirnameChars cs).head? = some '/' := by
  have hmem : '/' ∈ cs := by
    cases cs with
    | nil => simp at h
    | cons c t =>
      simp only [List.head?_cons, Option.some.injEq] at h
      subst h
      exact List.mem_cons_self _ _
  set d := cs.reverse.dropWhile (fun c => c ≠ '/') with hd_def
  have hd_ne : d ≠ [] := by
    intro hnil
    rw [hd_def, List.dropWhile_eq_nil_iff] at hnil
    have := hnil '/' (List.mem_reverse.mpr hmem)
    simp at this
  have hd_last : d.getLast? = some '/' := by
    have h1 : cs.reverse.getLast? = d.getLast? :=
      getLast?_of_suffix hd_ne (dropWhile_is_suffix _ _)
    rw [List.getLast?_reverse, h] at h1
    exact h1.symm
  have hhead_ne : d.reverse ≠ [] := by
    simp [hd_ne]
  have hhead_head : d.reverse.head? = some '/' := by
    rw [List.head?_reverse]
    exact hd_last
  rw [dirnameChars]
  simp only [← hd_def]
  rw [if_neg hhead_ne]
  by_cases hall : d.reverse.all (· = '/')
  · rw [if_pos hall]
    exact hhead_head
  · rw [if_neg hall]
    set d2 := d.reverse.reverse.dropWhile (· = '/') with hd2_def
    have hd2_ne : d2 ≠ [] := by
      intro hnil
      rw [hd2_def, List.dropWhile_eq_nil_iff, List.reverse_reverse] at hnil
      apply hall
      rw [List.all_eq_true]
      intro x hx
      exact hnil x (List.mem_reverse.mp hx)
    have hd2_last : d2.getLast? = some '/' := by
      have h1 : d.reverse.reverse.getLast? = d2.getLast? :=
        getLast?_of_suffix hd2_ne (dropWhile_is_suffix _ _)
      rw [List.getLast?_reverse, hhead_head] at h1
      exact h1.symm
    rw [List.head?_reverse]
    exact hd2_last

lemma dirname_absolute {p : String} (h : isAbsolute p = true) :
    isAbsolute (dirname p) = true := by
  rw [isAbsolute, startsWithSlash, beq_iff_eq] at h ⊢
  exact dirnameChars_head h

lemma pathJoin_absolute {a b : String} (ha : isAbsolute a = true)
    (hb : startsWithSlash b = false) : isAbsolute (pathJoin a b) = true := by
  rw [isAbsolute, startsWithSlash, beq_iff_eq] at ha
  have ha_ne : a.data ≠ [] := by
    intro hnil
    rw [hnil] at ha
    simp at ha
  have happ : ∀ c : String, isAbsolute (a ++ c) = true := by
    intro c
    rw [isAbsolute, startsWithSlash, beq_iff_eq, String.data_append,
      List.head?_append_of_ne_nil _ ha_ne]
    exact ha
  rw [pathJoin, hb]
  simp only [Bool.false_eq_true, if_false]
  by_cases hcase : a = "" ∨ endsWithSlash a = true
  · rw [if_pos hcase]
    exact happ b
  · rw [if_neg hcase]
    have := happ ("/" ++ b)
    rwa [← String.append_assoc] at this

/-- C8: `start_helper` launches the helper script at
`helperScriptOf argv0`, the path next to the supervisor's own install
location `sys.argv[0]`; when that location is an absolute path, the
launched script path resolves identically under every current working
directory of the caller. -/
theorem C8_helper_script_cwd_independent (env : Env) (st : SupState)
    (cwd1 cwd2 : String) (proc : Proc)
    (habs : isAbsolute env.argv0 = true)
    (hport : env.portInUse 8765 = false)
    (hpopen : env.popen .helper
      [get_python_path env.system env.sysExecutable env.pathExists,
       helperScriptOf env.argv0] = .ok proc) :
    start_helper env st =
      .ok ({ st with helper_process := some proc },
        [Action.log "Starting Office helper...",
         Action.spawn .helper
           [get_python_path env.system env.sysExecutable env.pathExists,
            helperScriptOf env.argv0],
         Action.sleep 3]) ∧
    resolveAgainstCwd cwd1 (helperScriptOf env.argv0) = helperScriptOf env.argv0 ∧
    resolveAgainstCwd cwd2 (helperScriptOf env.argv0) = helperScriptOf env.argv0 := by
  have habs2 : isAbsolute (helperScriptOf env.argv0) = true := by
    rw [helperScriptOf]
    exact pathJoin_absolute (dirname_absolute habs) rfl
  refine ⟨?_, ?_, ?_⟩
  · rw [start_helper, hport]
    simp [hpopen]
  · rw [resolveAgainstCwd, habs2]
    simp
  · rw [resolveAgainstCwd, habs2]
    simp

/-- Witness for C8 with an absolutely-installed supervisor and two
different working directories. -/
theorem C8_helper_script_cwd_independent_witness :
    start_helper envFreshRun ⟨none, none⟩ =
      .ok (⟨none, some ⟨false, false⟩⟩,
        [Action.log "Starting Office helper...",
         Action.spawn .helper
           [get_python_path envFreshRun.system envFreshRun.sysExecutable
              envFreshRun.pathExists,
            helperScriptOf envFreshRun.argv0],
         Action.sleep 3]) ∧
    resolveAgainstCwd "/tmp" (helperScriptOf envFreshRun.argv0) =
      helperScriptOf envFreshRun.argv0 ∧
    resolveAgainstCwd "/home/user" (helperScriptOf envFreshRun.argv0) =
      helperScriptOf envFreshRun.argv0 :=
  C8_helper_script_cwd_independent envFreshRun ⟨none, none⟩ "/tmp" "/home/user"
    ⟨false, false⟩ (by decide) rfl rfl

/-- Counterexample to unconditional C8: invoked with the relative
`sys.argv[0] = "main.py"`, `start_helper` launches the relative path
`"helper.py"` (since `dirname "main.py" = ""`), and that launched path
resolves to different files under two different working directories of
the caller. -/
theorem C8_helper_script_cwd_dependent_counterexample :
    start_helper envRelativeArgv0 ⟨none, none⟩ =
      .ok (⟨none, some ⟨false, false⟩⟩,
        [Action.log "Starting Office helper...",
         Action.spawn .helper ["/usr/bin/python3", "helper.py"],
         Action.sleep 3]) ∧
    helperScriptOf "main.py" = "helper.py" ∧
    resolveAgainstCwd "/a" (helperScriptOf "main.py") ≠
      resolveAgainstCwd "/b" (helperScriptOf "main.py") := by
  refine ⟨?_, by decide, by decide⟩
  rfl

lemma spawnCount_append (r : Role) (t1 t2 : List Action) :
    spawnCount r (t1 ++ t2) = spawnCount r t1 + spawnCount r t2 := by
  rw [spawnCount, spawnCount, spawnCount, List.filter_append,
    List.length_append]

lemma start_office_spawns (env : Env) (st st2 : SupState) (port : Nat)
    (tr : List Action) (h : start_office env st port = .ok (st2, tr)) :
    spawnCount .office tr ≤ 1 ∧ spawnCount .helper tr = 0 := by
  rw [start_office] at h
  split at h
  · split at h
    · exact absurd h (by simp)
    · split at h
      · exact absurd h (by simp)
      · simp only [Except.ok.injEq, Prod.mk.injEq] at h
        rw [← h.2]
        constructor <;> simp [spawnCount, isSpawnOf]
  · simp only [Except.ok.injEq, Prod.mk.injEq] at h
    rw [← h.2]
    constructor <;> simp [spawnCount, isSpawnOf]

lemma start_helper_spawns (env : Env) (st st2 : SupState)
    (tr : List Action) (h : start_helper env st = .ok (st2, tr)) :
    spawnCount .helper tr ≤ 1 ∧ spawnCount .office tr = 0 := by
  rw [start_helper] at h
  split at h
  · simp only [] at h
    split at h
    · exact absurd h (by simp)
    · simp only [Except.ok.injEq, Prod.mk.injEq] at h
      rw [← h.2]
      constructor <;> simp [spawnCount, isSpawnOf]
  · simp only [Except.ok.injEq, Prod.mk.injEq] at h
    rw [← h.2]
    constructor <;> simp [spawnCount, isSpawnOf]

lemma runStartup_spawnCount (env : Env) (r : Role) :
    spawnCount r (runStartup env).2.1 ≤ 1 := by
  rw [runStartup]
  rcases h1 : start_office env ⟨none, none⟩ 2002 with e1 | ⟨st1, t1⟩ <;>
    simp only [h1]
  · simp [spawnCount]
  · have ho := start_office_spawns env ⟨none, none⟩ st1 2002 t1 h1
    rcases h2 : start_helper env st1 with e2 | ⟨st2, t2⟩ <;> simp only [h2]
    · cases r
      · simpa using ho.1
      · have := ho.2
        omega
    · have hh := start_helper_spawns env st1 st2 t2 h2
      rcases h3 : env.mcpRun with e3 | u <;> simp only [h3] <;>
        · cases r
          · have := ho.1
            have := hh.2
            simp only [spawnCount_append]
            omega
          · have := ho.2
            have := hh.1
            simp only [spawnCount_append]
            omega

/-- C9: a pre-existing process detected via its bound port is never
registered as owned (both launch operations leave the state unchanged,
so the handles stay `None`), shutdown then terminates nothing; and any
startup run spawns at most one process per logical role. -/
theorem C9_preexisting_not_owned (env env2 : Env) (st : SupState)
    (port : Nat) (r : Role)
    (hoff : env.portInUse port = true) (hhelp : env.portInUse 8765 = true)
    (hO : st.office_process = none) (hH : st.helper_process = none) :
    (∃ trO, start_office env st port = .ok (st, trO)) ∧
    (∃ trH, start_helper env st = .ok (st, trH)) ∧
    cleanupTrace st = [Action.log "Cleaning up processes..."] ∧
    spawnCount r (runStartup env2).2.1 ≤ 1 := by
  refine ⟨⟨[Action.log ("Office socket already running on port " ++ toString port)], ?_⟩,
    ⟨[Action.log "Helper script already running on port 8765"], ?_⟩, ?_,
    runStartup_spawnCount env2 r⟩
  · simp [start_office, hoff]
  · simp [start_helper, hhelp]
  · rcases st with ⟨o, h⟩
    simp only at hO hH
    subst hO
    subst hH
    rfl

/-- Witness for C9: both ports bound, fresh state; `env2` is a fresh
run that actually spawns both processes. -/
theorem C9_preexisting_not_owned_witness :
    (∃ trO, start_office envPortsBound ⟨none, none⟩ 2002 = .ok (⟨none, none⟩, trO)) ∧
    (∃ trH, start_helper envPortsBound ⟨none, none⟩ = .ok (⟨none, none⟩, trH)) ∧
    cleanupTrace ⟨none, none⟩ = [Action.log "Cleaning up processes..."] ∧
    spawnCount .office (runStartup envFreshRun).2.1 ≤ 1 :=
  C9_preexisting_not_owned envPortsBound envFreshRun ⟨none, none⟩ 2002 .office
    rfl rfl rfl rfl

end MainPy
